import Mathlib

/-!
Verification of the orochi-drng node against its specification.

This file shallowly embeds the Go source (packages `keypair`, `network`,
and the `cmd/drng` entry point) into Lean. External collaborators
(libp2p crypto primitives, base64 codec, filesystem, transport, DHT,
pubsub) are modelled as explicit executable functions or as injected
outcomes, while the repository's own control flow is translated
statement by statement. Go's two failure modes are kept distinct: a
returned `error` value, and a runtime panic (nil-interface dereference
or `log.Panic`), both of which terminate the process when unhandled.
-/

set_option autoImplicit false

namespace Orochi

/-- Raw byte strings, modelled as lists of naturals. -/
abbrev Bytes := List Nat

/-- libp2p key type code for RSA (`go-libp2p-core/crypto`: `RSA = iota` = 0). -/
def RSA : Nat := 0

/-- libp2p key type code for Ed25519 (= 1). -/
def Ed25519 : Nat := 1

/-- libp2p key type code for Secp256k1 (= 2). -/
def Secp256k1 : Nat := 2

/-- Model of `p2pCrypto.PrivKey` values that can occur in this program. -/
inductive PrivKey where
| ed25519 (b : Bytes)
| secp256k1 (b : Bytes)
deriving DecidableEq, Repr

/-- Model of `p2pCrypto.PubKey` values. -/
inductive PubKey where
| ed25519 (b : Bytes)
| secp256k1 (b : Bytes)
deriving DecidableEq, Repr

/-- Raw bytes of a private key (`PrivKey.Raw()`): for libp2p Ed25519 this is the
64-byte seed-plus-public form; for Secp256k1 the 32-byte scalar. -/
def PrivKey.raw : PrivKey → Bytes
| .ed25519 b => b
| .secp256k1 b => b

/-- Model of the external secp256k1 point-derivation primitive (public key bytes
as a function of the private scalar). The claims never depend on its value, only
on it being a deterministic function. -/
def secpPubOf (b : Bytes) : Bytes := 2 :: b.take 32

/-- Model of `PrivKey.GetPublic()`. For libp2p Ed25519 the raw private key is
seed ++ public, so the public key is the last 32 bytes. -/
def PrivKey.getPublic : PrivKey → PubKey
| .ed25519 b => .ed25519 (b.drop 32)
| .secp256k1 b => .secp256k1 (secpPubOf b)

/-- Raw bytes of a public key (`PubKey.Raw()`). -/
def PubKey.raw : PubKey → Bytes
| .ed25519 b => b
| .secp256k1 b => b

/-- Model of `p2pCrypto.UnmarshalEd25519PrivateKey`: succeeds exactly on
64-byte input (the legacy 96-byte redundant form is not produced by this
program and is omitted). -/
def unmarshalEd25519PrivateKey (b : Bytes) : Option PrivKey :=
if b.length = 64 then some (.ed25519 b) else none

/-- Model of `p2pCrypto.UnmarshalSecp256k1PrivateKey`: succeeds exactly on
32-byte input. -/
def unmarshalSecp256k1PrivateKey (b : Bytes) : Option PrivKey :=
if b.length = 32 then some (.secp256k1 b) else none

/-- Model of `p2pCrypto.UnmarshalEd25519PublicKey`: succeeds exactly on
32-byte input. -/
def unmarshalEd25519PublicKey (b : Bytes) : Option PubKey :=
if b.length = 32 then some (.ed25519 b) else none

/-- Model of base64 strings as they flow through this program: either the
(unique) valid encoding of some bytes, or a string that fails decoding.
`ConfigEncodeKey` is injective and `ConfigDecodeKey` inverts it, which is
exactly the contract of std base64. -/
inductive B64 where
| valid (b : Bytes)
| invalid (s : String)
deriving DecidableEq, Repr

/-- Model of `p2pCrypto.ConfigEncodeKey` (std base64 encode). -/
def ConfigEncodeKey (b : Bytes) : B64 := .valid b

/-- Model of `p2pCrypto.ConfigDecodeKey` (std base64 decode). -/
def ConfigDecodeKey : B64 → Option Bytes
| .valid b => some b
| .invalid _ => none

/-- Error values the embedded functions can return (Go `error` results). -/
inductive GoErr where
| keyParse
| base64Decode
| keyGen
| ioOrDecode
deriving DecidableEq, Repr

/-- Result of a Go call: a returned value, a returned `error`, or a runtime
panic (nil-interface dereference), which crashes the process. -/
inductive Res (α : Type) where
| ok (a : α)
| err (e : GoErr)
| panics
deriving DecidableEq, Repr

/-- `keypair.KeyPair`: `keyType int; privKey p2pCrypto.PrivKey; pubKey p2pCrypto.PubKey`.
Go nil interfaces are `none`. A struct literal that omits `keyType` leaves the
zero value 0. -/
structure KeyPair where
keyType : Nat
privKey : Option PrivKey
pubKey : Option PubKey
deriving DecidableEq, Repr

/-- `keypair.JSON`: the persisted identity record
`{ "type": int, "signKey": bool, "key": base64 }`. -/
structure JSONRec where
KeyType : Nat
SignKey : Bool
Key : B64
deriving DecidableEq, Repr

/-- Pad/truncate entropy to a 32-byte seed; stands for reading exactly 32
bytes from the random source. -/
def padTo32 (b : Bytes) : Bytes := b.take 32 ++ List.replicate (32 - (b.take 32).length) 0

/-- Model of the external Ed25519 public-key derivation from a seed. The claims
never depend on its value, only on determinism and on it producing 32 bytes
from a 32-byte seed. -/
def ed25519DerivePub (seed : Bytes) : Bytes := seed.map (fun x => (x + 7) % 256)

/-- `keypair.New(typ, bits)`: `p2pCrypto.GenerateKeyPairWithReader(typ, bits, rand.Reader)`,
modelled as a function of the entropy drawn from the random source (`none`
models a failing random source). On success the Go code returns
`&KeyPair{keyType: typ, privKey: p, pubKey: v}` — note `keyType` IS set here.
`bits` is ignored by the Ed25519 and Secp256k1 generators, as in libp2p. -/
def New (typ : Nat) (_bits : Nat) (entropy : Option Bytes) : Res KeyPair :=
if typ = Ed25519 then
  match entropy with
  | some e =>
    let seed := padTo32 e
    let priv : PrivKey := .ed25519 (seed ++ ed25519DerivePub seed)
    .ok ⟨typ, some priv, some priv.getPublic⟩
  | none => .err .keyGen
else if typ = Secp256k1 then
  match entropy with
  | some e =>
    let priv : PrivKey := .secp256k1 (padTo32 e)
    .ok ⟨typ, some priv, some priv.getPublic⟩
  | none => .err .keyGen
else .err .keyGen

/-- `keypair.FromPrivateKey(typ, b)`. Faithful to the source: when `typ` is
neither Ed25519 nor Secp256k1, both `p` and `err` stay nil, the `err == nil`
branch is taken, and `p.GetPublic()` dereferences a nil interface — a panic.
On success the struct literal omits `keyType`, leaving 0. -/
def FromPrivateKey (typ : Nat) (b : Bytes) : Res KeyPair :=
if typ = Ed25519 then
  match unmarshalEd25519PrivateKey b with
  | some p => .ok ⟨0, some p, some p.getPublic⟩
  | none => .err .keyParse
else if typ = Secp256k1 then
  match unmarshalSecp256k1PrivateKey b with
  | some p => .ok ⟨0, some p, some p.getPublic⟩
  | none => .err .keyParse
else .panics

/-- `keypair.FromBase64PrivateKey(typ, s)`. -/
def FromBase64PrivateKey (typ : Nat) (s : B64) : Res KeyPair :=
match ConfigDecodeKey s with
| some p => FromPrivateKey typ p
| none => .err .base64Decode

/-- `keypair.FromPublicKey(b)`: always interprets the bytes as Ed25519; the
struct literal omits `keyType` (0) and leaves `privKey` nil. -/
def FromPublicKey (b : Bytes) : Res KeyPair :=
match unmarshalEd25519PublicKey b with
| some v => .ok ⟨0, none, some v⟩
| none => .err .keyParse

/-- `keypair.FromBase64PublicKey(s)`. -/
def FromBase64PublicKey (s : B64) : Res KeyPair :=
match ConfigDecodeKey s with
| some p => FromPublicKey p
| none => .err .base64Decode

/-- `KeyPair.isAbleToSign()`: `k.privKey != nil`. -/
def KeyPair.isAbleToSign (k : KeyPair) : Bool := k.privKey.isSome

/-- The JSON record `SaveToFile` writes (the filesystem side is injected
separately where a claim needs it). Faithful to the source: `jsonKey := new(JSON)`
zero-initializes `KeyType` to 0 and NO statement ever assigns it, so the
written record always carries `type = 0` regardless of the key's algorithm.
`Raw()` on the model key types never errors; `pubKey.Raw()` on a nil public
key would be a nil dereference. -/
def KeyPair.recordOf (k : KeyPair) : Res JSONRec :=
if k.isAbleToSign then
  match k.privKey with
  | some p => .ok ⟨0, true, ConfigEncodeKey p.raw⟩
  | none => .panics
else
  match k.pubKey with
  | some v => .ok ⟨0, false, ConfigEncodeKey v.raw⟩
  | none => .panics

/-- Dispatch of `LoadFromFile` once the file content parsed as a JSON record:
`signKey` selects private- or public-key restoration. -/
def loadRecord (rec : JSONRec) : Res KeyPair :=
if rec.SignKey then FromBase64PrivateKey rec.KeyType rec.Key
else FromBase64PublicKey rec.Key

/-- `keypair.LoadFromFile(fileName)`: `none` content models an unreadable file
or JSON that fails to unmarshal (both return an error in Go). -/
def LoadFromFile (content : Option JSONRec) : Res KeyPair :=
match content with
| some rec => loadRecord rec
| none => .err .ioOrDecode

/-- Model of `peer.IDFromPublicKey`: a deterministic pure function of the
public key (multihash of its encoding), modelled as an injective tagged
encoding of the key bytes. -/
def idFromPublicKey : PubKey → Bytes
| .ed25519 b => 1 :: b
| .secp256k1 b => 2 :: b

/-- `KeyPair.GetID()`: `peer.IDFromPublicKey(k.GetPublicKey())`; on a nil
public key the libp2p call dereferences nil. -/
def KeyPair.GetID (k : KeyPair) : Res Bytes :=
match k.pubKey with
| some v => .ok (idFromPublicKey v)
| none => .panics

/-- Model of the algorithm signing primitive (external); deterministic
function of key and data. -/
def signPrimitive (p : PrivKey) (data : Bytes) : Bytes := p.raw ++ data

/-- `KeyPair.Sign(data)`: `return k.privKey.Sign(data)` — no nil check, so a
key pair without a private key dereferences a nil interface and panics. -/
def KeyPair.Sign (k : KeyPair) (data : Bytes) : Res Bytes :=
match k.privKey with
| some p => .ok (signPrimitive p data)
| none => .panics

/-- `network.Network`: the fields the orchestrator logic reads. The transport
host's own identifier (`net.host.ID()`) is derived from the same private key
as `NodeID` (`libp2p.Identity(prvKey)`), so the model carries one identifier. -/
structure Network where
BindHost : String
BindPort : Nat
NodeID : Bytes
Domain : String
deriving DecidableEq, Repr

/-- Did the process finish the modelled phase, or die in a `log.Panic`? -/
inductive ProcOutcome where
| completed
| panicked
deriving DecidableEq, Repr

/-- Injected outcomes of the external calls `Announce` makes: DHT
construction, DHT bootstrap, one result per entry of
`dht.DefaultBootstrapPeers` (the fixed seed list), the `FindPeers` call, and
the lazily discovered peers, each paired with whether `host.Connect` to it
succeeds. -/
structure AnnounceEnv where
dhtNewOk : Bool
bootstrapOk : Bool
seedResults : List Bool
findPeersOk : Bool
discovered : List (Bytes × Bool)
deriving DecidableEq, Repr

/-- Observable trace of one `Announce` run. `seedWarnings` counts failed seed
connections (each logged with `log.Warn`), `seedInfos` the successful ones;
`connectCalls` lists the peers for which `host.Connect` was issued in the
discovery loop, `connectedPeers` those that succeeded. -/
structure AnnounceTrace where
seedWarnings : Nat
seedInfos : Nat
advertised : Bool
connectCalls : List Bytes
connectedPeers : List Bytes
outcome : ProcOutcome
deriving DecidableEq, Repr

/-- The `for curPeer := range peerChan` loop of `Announce`: entries equal to
the host's own ID are skipped with `continue` before any connect; otherwise
`host.Connect` is issued, a failure is logged with `log.Warnf` and the loop
continues with the next candidate. Returns (connect calls, successes). -/
def discoverLoop (selfID : Bytes) : List (Bytes × Bool) → List Bytes × List Bytes
| [] => ([], [])
| (pid, cok) :: rest =>
  if pid = selfID then discoverLoop selfID rest
  else
    let r := discoverLoop selfID rest
    (pid :: r.1, if cok then pid :: r.2 else r.2)

/-- `Network.Announce()`. DHT construction and bootstrap failures hit
`log.Panic`. The seed connections run one goroutine per seed with
`wg.Add(1)`/`wg.Wait()`: every attempt completes (warned or logged) before
the code advertises; no path aborts on a failed seed connection and no
minimum success count is consulted. Then `discovery.Advertise` (no error
consumed), then `FindPeers` (error hits `log.Panic`), then the discovery
loop. -/
def Network.Announce (net : Network) (env : AnnounceEnv) : AnnounceTrace :=
if env.dhtNewOk = false then ⟨0, 0, false, [], [], .panicked⟩
else if env.bootstrapOk = false then ⟨0, 0, false, [], [], .panicked⟩
else
  let warns := (env.seedResults.filter (fun b => !b)).length
  let infos := (env.seedResults.filter (fun b => b)).length
  if env.findPeersOk = false then ⟨warns, infos, true, [], [], .panicked⟩
  else
    let d := discoverLoop net.NodeID env.discovered
    ⟨warns, infos, true, d.1, d.2, .completed⟩

/-- The literal topic name passed to `net.pubsub.Join` in `Network.Join` —
a constant, independent of the Network (in particular of `Domain`). -/
def joinTopicArg (_net : Network) : String := "hello"

/-- Model of `rand.Intn(n)`: the generator's output given its entropy `r`,
uniform over `0, ..., n-1`. -/
def randIntn (n : Nat) (r : Nat) : Nat := r % n

/-- Model of `peer.ID.Pretty()`: a deterministic rendering of the identifier
as a string (external base58 encoding). -/
def prettyID (pid : Bytes) : String := String.intercalate "." (pid.map toString)

/-- The exact payload string `Join` publishes:
`"Hello from:" + net.NodeID.Pretty()`. -/
def publishMessage (net : Network) : String := "Hello from:" ++ prettyID net.NodeID

/-- One scheduled publish: `time.AfterFunc(time.Duration(rand.Intn(10))*time.Second, ...)`
with the payload above. -/
structure PublishAction where
delaySeconds : Nat
payload : String
deriving DecidableEq, Repr

/-- The publish scheduled in one loop iteration, as a function of the
generator entropy for that iteration. -/
def iterPublish (net : Network) (r : Nat) : PublishAction :=
⟨randIntn 10 r, publishMessage net⟩

/-- Injected environment of one iteration of the steady-state loop: the
generator entropy, whether `topic.Publish` fails (its result is a value the
code may or may not consume), and the result of `helloWorld.Next` —
`some (sender, data)` for a delivered message, `none` for a receive error. -/
structure IterInput where
randVal : Nat
publishErr : Bool
received : Option (Bytes × Bytes)
deriving DecidableEq, Repr

/-- Replace the publish-failure flag of an iteration. -/
def setPublishErr (b : Bool) (it : IterInput) : IterInput :=
⟨it.randVal, b, it.received⟩

/-- Outcome of running the steady-state loop on a finite prefix of its
inputs: still looping, or dead in `log.Panic`. -/
inductive LoopOutcome where
| running
| panicked
deriving DecidableEq, Repr

/-- The `for` loop of `Network.Join`: each iteration first schedules a
publish via `time.AfterFunc` — the error result of `topic.Publish` inside
the callback is DISCARDED (the statement ignores both return values), so
`publishErr` is never consulted — then blocks in `helloWorld.Next`; a
receive error hits `log.Panic`, a message is logged and the loop repeats.
Returns (scheduled publishes, messages logged, outcome). -/
def joinLoop (net : Network) : List IterInput → List PublishAction × Nat × LoopOutcome
| [] => ([], 0, .running)
| it :: rest =>
  let act := iterPublish net it.randVal
  match it.received with
  | none => ([act], 0, .panicked)
  | some _ =>
    let r := joinLoop net rest
    (act :: r.1, r.2.1 + 1, r.2.2)

/-- Injected outcomes of the external calls `Join` makes. -/
structure JoinEnv where
joinOk : Bool
subscribeOk : Bool
iters : List IterInput
deriving DecidableEq, Repr

/-- Observable trace of `Network.Join`: the topic name requested from the
pubsub layer, whether subscription happened, the scheduled publishes, the
count of received-and-logged messages, and the loop outcome. -/
structure JoinTrace where
topicRequested : String
subscribed : Bool
publishes : List PublishAction
receivedLogs : Nat
loopOutcome : LoopOutcome
deriving DecidableEq, Repr

/-- `Network.Join()`: joins the fixed topic `"hello"`, subscribes (each
failure hits `log.Panic`), then runs the steady-state loop. -/
def Network.Join (net : Network) (env : JoinEnv) : JoinTrace :=
let tname := joinTopicArg net
if env.joinOk = false then ⟨tname, false, [], 0, .panicked⟩
else if env.subscribeOk = false then ⟨tname, false, [], 0, .panicked⟩
else
  let r := joinLoop net env.iters
  ⟨tname, true, r.1, r.2.1, r.2.2⟩

/-- Injected environment of one run of `cmd/drng.main`'s identity phase:
whether `os.Stat` finds the key file, the parsed content when it exists
(`none` = read or JSON error), the entropy available to key generation
(`none` = failing random source), and whether the filesystem accepts
`SaveToFile`'s write. -/
structure StartupEnv where
fileExists : Bool
fileContent : Option JSONRec
genEntropy : Option Bytes
saveOk : Bool
deriving DecidableEq, Repr

/-- Outcome of the identity phase of `main`: the node proceeds to the
network phase holding `k` (with `written` the record now on disk, if any),
or the process dies — `aborted` via `log.Panic`, `crashed` via a runtime
nil dereference. -/
inductive StartOutcome where
| running (k : KeyPair) (written : Option JSONRec)
| aborted
| crashed
deriving DecidableEq, Repr

/-- The identity phase of `cmd/drng.main`: if the key file is absent,
generate (`log.Panic` on error) and call `SaveToFile` — whose `(bool, error)`
result is DISCARDED by `nodeKey.SaveToFile(keyfile)` — then proceed; if
present, `LoadFromFile` and `log.Panic` on an error result. -/
def startupMain (env : StartupEnv) : StartOutcome :=
if env.fileExists = false then
  match New Ed25519 256 env.genEntropy with
  | .ok k =>
    let written :=
      if env.saveOk then
        match k.recordOf with
        | .ok rec => some rec
        | _ => none
      else none
    .running k written
  | .err _ => .aborted
  | .panics => .crashed
else
  match LoadFromFile env.fileContent with
  | .ok k => .running k none
  | .err _ => .aborted
  | .panics => .crashed

/-! ### Concrete sample values used by witnesses and counterexamples -/

/-- Entropy of an all-zero 32-byte seed. -/
def sampleEntropy : Bytes := List.replicate 32 0

/-- Raw private key generated from `sampleEntropy` (seed ++ derived public). -/
def samplePriv : Bytes := List.replicate 32 0 ++ List.replicate 32 7

/-- The signing-capable Ed25519 KeyPair `New Ed25519 256` produces from
`sampleEntropy`. -/
def sampleKey : KeyPair := ⟨Ed25519, some (.ed25519 samplePriv), some (.ed25519 (List.replicate 32 7))⟩

/-- The record `SaveToFile` writes for `sampleKey` — note `KeyType = 0`. -/
def sampleRec : JSONRec := ⟨0, true, .valid samplePriv⟩

/-- A valid 32-byte Ed25519 public key. -/
def pubOnlyBytes : Bytes := List.replicate 32 1

/-- The verify-only KeyPair `FromPublicKey pubOnlyBytes` produces. -/
def pubOnlyKey : KeyPair := ⟨0, none, some (.ed25519 pubOnlyBytes)⟩

/-- A persisted record with `signKey = true` and the (always-written) type
code 0, whose key field is valid base64. -/
def badRec : JSONRec := ⟨0, true, .valid []⟩

/-! ### Claim C1 -/

/-- C1: the claimed save/load round trip in fact fails for every
signing-capable KeyPair: `SaveToFile` never assigns the record's `type`
field (it stays 0 = RSA), and loading any `signKey=true` record with type 0
reaches `FromPrivateKey`'s fall-through, where a nil private key is
dereferenced — the process panics instead of returning an equal KeyPair. -/
theorem c1_roundtrip_crashes (k : KeyPair) (rec : JSONRec)
    (hs : k.isAbleToSign = true) (hr : k.recordOf = .ok rec) :
    rec.KeyType = 0 ∧ rec.SignKey = true ∧ loadRecord rec = Res.panics := by
  rcases k with ⟨kt, priv, pub⟩
  cases priv with
  | none => simp [KeyPair.isAbleToSign] at hs
  | some p =>
    simp [KeyPair.recordOf, KeyPair.isAbleToSign, ConfigEncodeKey] at hr
    rw [← hr]
    refine ⟨rfl, rfl, ?_⟩
    simp [loadRecord, FromBase64PrivateKey, ConfigDecodeKey, FromPrivateKey, Ed25519, Secp256k1]

/-- C1 witness: the concrete KeyPair generated from `sampleEntropy` persists
as `sampleRec` (with type code 0) and reloading that record panics. -/
theorem c1_roundtrip_crashes_witness :
    sampleKey.isAbleToSign = true ∧ sampleKey.recordOf = .ok sampleRec ∧
      (sampleRec.KeyType = 0 ∧ sampleRec.SignKey = true ∧ loadRecord sampleRec = Res.panics) :=
  ⟨rfl, rfl, c1_roundtrip_crashes sampleKey sampleRec rfl rfl⟩

/-! ### Claim C2 -/

/-- C2: startup against a missing key file does generate and persist a fresh
KeyPair, but the second startup never loads the identical identity: the
persisted record carries type code 0, so `LoadFromFile` panics on it and the
second run crashes before any identifier can be derived. -/
theorem c2_restart_crashes (e : Bytes) (e2 : Option Bytes) (s2 : Bool) :
    ∃ k rec, startupMain ⟨false, none, some e, true⟩ = .running k (some rec) ∧
      startupMain ⟨true, some rec, e2, s2⟩ = .crashed := by
  refine ⟨⟨Ed25519, some (.ed25519 (padTo32 e ++ ed25519DerivePub (padTo32 e))),
      some (PrivKey.getPublic (.ed25519 (padTo32 e ++ ed25519DerivePub (padTo32 e))))⟩,
    ⟨0, true, .valid (padTo32 e ++ ed25519DerivePub (padTo32 e))⟩, ?_, ?_⟩
  · simp [startupMain, New, KeyPair.recordOf, KeyPair.isAbleToSign, PrivKey.raw,
      ConfigEncodeKey, Ed25519]
  · simp [startupMain, LoadFromFile, loadRecord, FromBase64PrivateKey, ConfigDecodeKey,
      FromPrivateKey, Ed25519, Secp256k1]

/-! ### Claim C3 -/

/-- C3 counterexample: the KeyPair restored by `FromPublicKey` from a valid
public key does not fail `Sign` with an error result — `Sign` dereferences
the nil private key and the process panics (a crash, not an error value). -/
theorem c3_sign_panics_cex :
    FromPublicKey pubOnlyBytes = .ok pubOnlyKey ∧
      pubOnlyKey.Sign [1, 2, 3] = Res.panics :=
  ⟨rfl, rfl⟩

/-- C3 amended: for every KeyPair whose private key is absent, `Sign` crashes
with a nil-dereference panic (rather than returning a NotSigningCapableError
value), and any record such a KeyPair persists has `signKey = false`. -/
theorem c3_sign_amended (k : KeyPair) (data : Bytes) (rec : JSONRec)
    (hp : k.privKey = none) :
    k.Sign data = Res.panics ∧ (k.recordOf = .ok rec → rec.SignKey = false) := by
  constructor
  · simp [KeyPair.Sign, hp]
  · intro hr
    rcases k with ⟨kt, priv, pub⟩
    simp only at hp
    subst hp
    cases pub with
    | none => simp [KeyPair.recordOf, KeyPair.isAbleToSign] at hr
    | some v =>
      simp [KeyPair.recordOf, KeyPair.isAbleToSign, ConfigEncodeKey] at hr
      rw [← hr]

/-- C3 witness: the amended statement at the concrete verify-only KeyPair. -/
theorem c3_sign_amended_witness :
    pubOnlyKey.Sign [1, 2, 3] = Res.panics ∧
      (pubOnlyKey.recordOf = .ok ⟨0, false, .valid pubOnlyBytes⟩ →
        (⟨0, false, B64.valid pubOnlyBytes⟩ : JSONRec).SignKey = false) :=
  c3_sign_amended pubOnlyKey [1, 2, 3] ⟨0, false, .valid pubOnlyBytes⟩ rfl

/-! ### Claim C4 -/

/-- C4: loading a `signKey=true` record whose type code is unrecognized (in
particular the code 0 this program always writes) does not return a
KeyParseError value: `FromPrivateKey` falls through both branches with a nil
key and nil error and panics on `p.GetPublic()`. -/
theorem c4_load_bad_type_panics (rec : JSONRec) (b : Bytes)
    (hs : rec.SignKey = true) (h1 : rec.KeyType ≠ Ed25519) (h2 : rec.KeyType ≠ Secp256k1)
    (hd : ConfigDecodeKey rec.Key = some b) :
    LoadFromFile (some rec) = Res.panics := by
  simp [LoadFromFile, loadRecord, hs, FromBase64PrivateKey, hd, FromPrivateKey, h1, h2]

/-- C4 witness: the concrete record `{type: 0, signKey: true, key: ""}`
panics on load. -/
theorem c4_load_bad_type_panics_witness : LoadFromFile (some badRec) = Res.panics :=
  c4_load_bad_type_panics badRec [] rfl (by decide) (by decide) rfl

/-! ### Claims C5-C10: orchestrator behavior -/

/-- A concrete Network value used by witnesses. -/
def net0 : Network := ⟨"0.0.0.0", 1, [1, 2], "P2Sub::alpha::0.0.1"⟩

/-- The discovery loop issues a connect call for exactly the non-self
candidates, in order: a failed connect never removes later candidates. -/
lemma discoverLoop_calls (selfID : Bytes) (peers : List (Bytes × Bool)) :
    (discoverLoop selfID peers).1 = (peers.filter (fun p => p.1 ≠ selfID)).map Prod.fst := by
  induction peers with
  | nil => rfl
  | cons hd tl ih =>
    rcases hd with ⟨pid, cok⟩
    by_cases h : pid = selfID <;> simp [discoverLoop, h, ih]

/-- A receive error, wherever it occurs after successfully received
messages, drives the steady-state loop into `log.Panic`. -/
lemma joinLoop_recv_error_panics (net : Network) (pre post : List IterInput) (it : IterInput)
    (hpre : ∀ j ∈ pre, j.received.isSome = true) (hit : it.received = none) :
    (joinLoop net (pre ++ it :: post)).2.2 = .panicked := by
  induction pre with
  | nil => simp [joinLoop, hit]
  | cons a l ih =>
    have ha : a.received.isSome = true := hpre a (by simp)
    rcases hsome : a.received with _ | v
    · rw [hsome] at ha
      simp at ha
    · simp only [List.cons_append, joinLoop, hsome]
      exact ih (fun j hj => hpre j (by simp [hj]))

/-- The steady-state loop's whole trace is independent of whether the
publishes fail: `topic.Publish`'s result is discarded. -/
lemma joinLoop_publishErr_irrelevant (net : Network) (b : Bool) (l : List IterInput) :
    joinLoop net (l.map (setPublishErr b)) = joinLoop net l := by
  induction l with
  | nil => rfl
  | cons a t ih =>
    rcases hsome : a.received with _ | v <;>
      simp [joinLoop, setPublishErr, hsome, ih, iterPublish]

/-- C5 counterexample: an iteration whose publish fails but whose receive
succeeds leaves the steady-state loop running — a publish error does NOT
abort the process (its error result is discarded inside the `AfterFunc`
callback), contrary to the claim. -/
theorem c5_publish_error_not_fatal_cex :
    (Network.Join net0 ⟨true, true, [⟨3, true, some ([9], [4])⟩]⟩).loopOutcome = .running :=
  rfl

/-- C5 amended: a connect error during the discovery phase never aborts and
every later candidate is still attempted; a receive error in the
steady-state loop aborts the process; a publish error is silently ignored
(the loop's trace does not depend on it) and does not abort. -/
theorem c5_error_boundary (selfID : Bytes) (peers : List (Bytes × Bool))
    (net : Network) (env : JoinEnv) (pre post : List IterInput) (it : IterInput) (b : Bool)
    (hj : env.joinOk = true) (hsub : env.subscribeOk = true)
    (hiters : env.iters = pre ++ it :: post)
    (hpre : ∀ j ∈ pre, j.received.isSome = true) (hit : it.received = none) :
    (discoverLoop selfID peers).1 = (peers.filter (fun p => p.1 ≠ selfID)).map Prod.fst ∧
    (net.Join env).loopOutcome = .panicked ∧
    joinLoop net (env.iters.map (setPublishErr b)) = joinLoop net env.iters := by
  refine ⟨discoverLoop_calls selfID peers, ?_, joinLoop_publishErr_irrelevant net b env.iters⟩
  simp only [Network.Join, hj, hsub, hiters]
  simpa using joinLoop_recv_error_panics net pre post it hpre hit

/-- C5 witness: the amended statement at concrete inputs — one failing then
one succeeding discovery candidate, and a loop that receives once and then
hits a receive error. -/
theorem c5_error_boundary_witness :
    (discoverLoop [1, 2] [([5], false), ([6], true)]).1 =
      (([([5], false), ([6], true)] : List (Bytes × Bool)).filter
        (fun p => p.1 ≠ ([1, 2] : Bytes))).map Prod.fst ∧
    (Network.Join net0 ⟨true, true, [⟨3, false, some ([9], [4])⟩, ⟨5, false, none⟩]⟩).loopOutcome
      = .panicked ∧
    joinLoop net0 (([⟨3, false, some ([9], [4])⟩, ⟨5, false, none⟩] : List IterInput).map
        (setPublishErr true))
      = joinLoop net0 [⟨3, false, some ([9], [4])⟩, ⟨5, false, none⟩] :=
  c5_error_boundary [1, 2] [([5], false), ([6], true)] net0
    ⟨true, true, [⟨3, false, some ([9], [4])⟩, ⟨5, false, none⟩]⟩
    [⟨3, false, some ([9], [4])⟩] [] ⟨5, false, none⟩ true rfl rfl rfl
    (by intro j hj; simp at hj; subst hj; rfl) rfl

/-- C6 counterexample: with a missing key file, successful generation and a
FAILING persist, the node still proceeds to the network phase — main
discards `SaveToFile`'s result, so a persist failure does not abort. -/
theorem c6_persist_failure_not_fatal_cex :
    startupMain ⟨false, none, some sampleEntropy, false⟩ = .running sampleKey none :=
  rfl

/-- C6 amended: key-generation failures and key-file load failures during
startup abort the process via `log.Panic`, but a key-file persist failure
is silently ignored: the node keeps running with the freshly generated key
and nothing on disk. -/
theorem c6_startup_errors (env : StartupEnv) (rec : JSONRec) (er : GoErr) :
    (env.fileExists = false → env.genEntropy = none → startupMain env = .aborted) ∧
    (env.fileExists = true → env.fileContent = none → startupMain env = .aborted) ∧
    (env.fileExists = true → env.fileContent = some rec → loadRecord rec = .err er →
      startupMain env = .aborted) ∧
    (env.fileExists = false → ∀ e, env.genEntropy = some e →
      ∃ k w, startupMain env = .running k w) := by
  rcases env with ⟨fe, fc, ge, so⟩
  refine ⟨?_, ?_, ?_, ?_⟩
  · intro h1 h2
    simp only at h1 h2
    subst h1; subst h2
    simp [startupMain, New, Ed25519]
  · intro h1 h2
    simp only at h1 h2
    subst h1; subst h2
    simp [startupMain, LoadFromFile]
  · intro h1 h2 h3
    simp only at h1 h2
    subst h1; subst h2
    simp [startupMain, LoadFromFile, h3]
  · intro h1 e h2
    simp only at h1 h2
    subst h1; subst h2
    cases so <;> exact ⟨_, _, rfl⟩

/-- C6 witness: the amended statement exercised at concrete environments —
a failing random source aborts, and a missing file with a failing persist
still runs. -/
theorem c6_startup_errors_witness :
    startupMain ⟨false, none, none, true⟩ = .aborted ∧
    ∃ k w, startupMain ⟨false, none, some sampleEntropy, false⟩ = .running k w :=
  ⟨(c6_startup_errors ⟨false, none, none, true⟩ badRec GoErr.ioOrDecode).1 rfl rfl,
   (c6_startup_errors ⟨false, none, some sampleEntropy, false⟩ badRec
      GoErr.ioOrDecode).2.2.2 rfl sampleEntropy rfl⟩

/-- Every seed outcome is either warned or logged as a success. -/
lemma length_filter_not_add (l : List Bool) :
    (l.filter (fun b => !b)).length + (l.filter (fun b => b)).length = l.length := by
  induction l with
  | nil => rfl
  | cons a t ih => cases a <;> simp [List.filter_cons] <;> omega

/-- C7: whatever the outcomes of the concurrent seed connections — including
zero successes — `Announce` accounts for every attempt (the `wg.Wait`
barrier), records the failures only as warnings, and still advertises and
runs discovery; no minimum number of successful seeds is consulted. -/
theorem c7_seed_tolerance (net : Network) (env : AnnounceEnv)
    (hd : env.dhtNewOk = true) (hb : env.bootstrapOk = true) :
    (net.Announce env).seedWarnings + (net.Announce env).seedInfos = env.seedResults.length ∧
    (net.Announce env).seedWarnings = (env.seedResults.filter (fun b => !b)).length ∧
    (net.Announce env).advertised = true ∧
    (env.findPeersOk = true → (net.Announce env).outcome = .completed) := by
  rcases env with ⟨d, b, seeds, fp, disc⟩
  simp only at hd hb
  subst hd; subst hb
  cases fp <;> simp [Network.Announce, length_filter_not_add]

/-- C7 witness: one success and two failures still advertise and complete
discovery. -/
theorem c7_seed_tolerance_witness :
    (net0.Announce ⟨true, true, [true, false, false], true, []⟩).seedWarnings +
        (net0.Announce ⟨true, true, [true, false, false], true, []⟩).seedInfos
      = ([true, false, false] : List Bool).length ∧
    (net0.Announce ⟨true, true, [true, false, false], true, []⟩).seedWarnings
      = (([true, false, false] : List Bool).filter (fun b => !b)).length ∧
    (net0.Announce ⟨true, true, [true, false, false], true, []⟩).advertised = true ∧
    (true = true →
      (net0.Announce ⟨true, true, [true, false, false], true, []⟩).outcome = .completed) :=
  c7_seed_tolerance net0 ⟨true, true, [true, false, false], true, []⟩ rfl rfl

/-- The discovery loop never issues a connect call for the node's own
identifier. -/
lemma discoverLoop_no_self (selfID : Bytes) (peers : List (Bytes × Bool)) :
    selfID ∉ (discoverLoop selfID peers).1 := by
  induction peers with
  | nil => simp [discoverLoop]
  | cons hd tl ih =>
    rcases hd with ⟨pid, cok⟩
    by_cases h : pid = selfID
    · simpa [discoverLoop, h] using ih
    · simp [discoverLoop, h, List.mem_cons]
      exact ⟨fun hc => h hc.symm, ih⟩

/-- C8: in every discovery sequence, a discovered entry equal to this node's
own identifier is skipped with `continue` before any connect — the connect
call list of `Announce` never contains the node's own ID. -/
theorem c8_no_self_connect (net : Network) (env : AnnounceEnv) :
    net.NodeID ∉ (net.Announce env).connectCalls := by
  rcases env with ⟨d, b, seeds, fp, disc⟩
  cases d <;> cases b <;> cases fp <;>
    simp [Network.Announce, discoverLoop_no_self]

/-- Every scheduled publish of the steady-state loop is `iterPublish` at
some generator value. -/
lemma joinLoop_publishes_shape (net : Network) (l : List IterInput) (act : PublishAction)
    (h : act ∈ (joinLoop net l).1) : ∃ r, act = iterPublish net r := by
  induction l with
  | nil => simp [joinLoop] at h
  | cons a t ih =>
    rcases hsome : a.received with _ | v
    · simp [joinLoop, hsome] at h
      exact ⟨a.randVal, h⟩
    · simp only [joinLoop, hsome, List.mem_cons] at h
      rcases h with h | h
      · exact ⟨a.randVal, h⟩
      · exact ih h

/-- C9: every message the steady-state loop schedules is published after a
delay of `rand.Intn(10)` whole seconds — a value in [0, 10), with the
uniform generator attaining each such value — and its payload is exactly
`"Hello from:" + nodeID.Pretty()`. -/
theorem c9_publish_payload_and_delay (net : Network) (env : JoinEnv)
    (act : PublishAction) (k : Nat)
    (ha : act ∈ (net.Join env).publishes) (hk : k < 10) :
    act.delaySeconds < 10 ∧
    act.payload = "Hello from:" ++ prettyID net.NodeID ∧
    randIntn 10 k = k := by
  rcases env with ⟨j, s, l⟩
  have hshape : ∃ r, act = iterPublish net r := by
    cases j <;> cases s <;> simp [Network.Join] at ha
    exact joinLoop_publishes_shape net l act ha
  rcases hshape with ⟨r, hr⟩
  subst hr
  refine ⟨Nat.mod_lt r (by omega), rfl, Nat.mod_eq_of_lt hk⟩

/-- C9 witness: the publish scheduled by a concrete loop run has delay 3
seconds and the exact payload. -/
theorem c9_publish_payload_and_delay_witness :
    (iterPublish net0 3).delaySeconds < 10 ∧
    (iterPublish net0 3).payload = "Hello from:" ++ prettyID net0.NodeID ∧
    randIntn 10 7 = 7 :=
  c9_publish_payload_and_delay net0 ⟨true, true, [⟨3, false, some ([9], [4])⟩]⟩
    (iterPublish net0 3) 7 (by simp [Network.Join, joinLoop]) (by decide)

/-- C10: the topic name `Join` requests from the pubsub layer is the fixed
literal "hello" for every Network — in particular it does not depend on the
rendezvous `Domain` or any other configuration, so all nodes share one
topic. -/
theorem c10_fixed_topic (net net2 : Network) (env env2 : JoinEnv) :
    (net.Join env).topicRequested = "hello" ∧
    (net.Join env).topicRequested = (net2.Join env2).topicRequested := by
  rcases env with ⟨j, s, l⟩
  rcases env2 with ⟨j2, s2, l2⟩
  cases j <;> cases s <;> cases j2 <;> cases s2 <;>
    simp [Network.Join, joinTopicArg]

end Orochi
